import Mathlib

/-!
Shallow embedding of `src/Python/azureml-pipeline-databricks/azureml/build_ml_pipeline.py`.

The script is a linear provisioning procedure: every interesting action is a
call to an external service (Azure ML SDK, key vault, Databricks REST API).
We model each external call by an oracle field giving that call's outcome
(`Except PyErr α`: either the value the call returns, or the exception it
raises), and we record the calls the script performs in a trace of `Event`s.
Pure Python fragments (string formatting, dict lookups, branching) are
translated directly.  Machine-level aspects (actual HTTP, real SHA-1) are
abstracted: the SHA-1 hex digest function from `hashlib` is a parameter, since
only the shape and determinism of the produced path matter to the claims.
-/

/-- Python exceptions that the script can raise or receive from SDK calls. -/
inductive PyErr where
  | nameError (name : String)
  | valueError (msg : String)
  | keyError (key : String)
  | systemExit (code : Nat)
  | sdkError (msg : String)
deriving DecidableEq, Repr

/-- External operations performed by the script, in the order they happen. -/
inductive Event where
  | runGetContext
  | getSecret (name : String)
  | workspaceConnect
  | workspaceFromConfig
  | authAzuread (workspace_name : String)
  | tokenCreate (comment : String)
  | computeAttach (compute_name : String)
  | computeWait
  | instancePoolsList
  | instancePoolsCreate (pool_name : String)
  | getDatastore (name : String)
  | fileRead (path : String)
  | workspaceMkdirs (path : String)
  | workspaceImport (path : String)
  | databricksStepCreate (notebook_path : String) (instance_pool_id : Option String)
  | pipelineValidate
  | pipelinePublish (name : String) (version : String)
deriving DecidableEq, Repr

/-- Result of running a fragment of the script: the external calls it made,
and either its value or the exception that escaped it. -/
structure M (α : Type) where
  trace : List Event
  result : Except PyErr α
deriving Repr

/-- Return a pure value, performing no external call. -/
def M.pure {α : Type} (a : α) : M α := ⟨[], .ok a⟩

/-- Sequencing: if `m` raises, the rest is not executed; the calls already
made stay in the trace. -/
def M.bind {α β : Type} (m : M α) (f : α → M β) : M β :=
  match m.result with
  | .error e => ⟨m.trace, .error e⟩
  | .ok a => ⟨m.trace ++ (f a).trace, (f a).result⟩

/-- One external call: it is recorded in the trace whether it succeeds or
raises. -/
def call {α : Type} (ev : Event) (r : Except PyErr α) : M α := ⟨[ev], r⟩

/-- Raise an exception from pure code (no external call involved). -/
def pyRaise {α : Type} (e : PyErr) : M α := ⟨[], .error e⟩

/-- Embed a pure fallible computation (dict indexing and the like). -/
def liftE {α : Type} (r : Except PyErr α) : M α := ⟨[], r⟩

/-- A Python `try: ... except: x = None` around a fragment: the calls made
are kept, any exception is swallowed and `None` is produced instead. -/
def tryExceptNone {α : Type} (m : M α) : M (Option α) :=
  match m.result with
  | .error _ => ⟨m.trace, .ok none⟩
  | .ok a => ⟨m.trace, .ok (some a)⟩

/-- Association-list lookup, modelling Python dict access by key
(`d[k]` succeeds iff `k in d`). -/
def lookupStr {α : Type} : List (String × α) → String → Option α
  | [], _ => none
  | (k, v) :: rest, key => if k = key then some v else lookupStr rest key

/-- Python `d[k]` on a string dict: `KeyError` when the key is absent. -/
def dictGetStr (d : List (String × String)) (k : String) : Except PyErr String :=
  match lookupStr d k with
  | some v => .ok v
  | none => .error (.keyError k)

/-- Python truthiness of an optional string (`None` and `""` are falsy):
this is what `if not instance_pool_id:` tests. -/
def strTruthy : Option String → Bool
  | none => false
  | some s => !s.isEmpty

/-- The exact runtime class of a compute target object, modelling Python's
`type(compute_target) is DatabricksCompute` check (subclasses excluded). -/
inductive CTType where
  | databricksCompute
  | otherCompute
deriving DecidableEq, Repr

/-- An Azure ML compute target object.  `objName` stands for the object's
printed representation (used in the `ValueError` message).  Azure SDK compute
objects define no `__bool__`/`__len__`, so they are always truthy. -/
structure ComputeTargetObj where
  ctype : CTType
  objName : String
deriving DecidableEq, Repr

/-- Python truthiness of a compute target object (always `True`). -/
def objTruthy (_ : ComputeTargetObj) : Bool := true

/-- The data of an Azure ML `Workspace` that the script reads.
`compute_targets` models the workspace's compute-target dict. -/
structure Workspace where
  compute_targets : List (String × ComputeTargetObj)
  location : String
  resource_group : String
  subscription_id : String
  wsname : String
deriving DecidableEq, Repr

/-- One entry of the `instance_pools` list in the `instance-pools/list`
response, as a string-keyed dict (fields such as `instance_pool_name` may be
absent, in which case indexing raises `KeyError`). -/
structure PoolInfo where
  kvs : List (String × String)
deriving DecidableEq, Repr

/-- The `instance-pools/list` response.  `instance_pools = none` models the
documented API quirk that the `instance_pools` key is absent when there are
no pools. -/
structure PoolsListResponse where
  instance_pools : Option (List PoolInfo)
deriving DecidableEq, Repr

/-- Module-level names bound in `build_ml_pipeline.py`: the imports and the
module-level assignments/defs.  Note that `args` is NOT among them: it is
assigned only inside `main`, so a reference to `args` from another
module-level function resolves to nothing and raises `NameError`. -/
def module_scope_names : List String :=
  ["argparse", "base64", "hashlib", "databricks_client", "adal",
   "Workspace", "Run", "Pipeline", "PipelineData", "DatabricksStep",
   "DatabricksCompute", "ComputeTarget", "Datastore", "DataReference",
   "StorageManagementClient", "ServicePrincipalAuthentication",
   "DATABRICKS_RUNTIME_VERSION",
   "get_databricks_compute", "create_databricks_compute",
   "upload_notebook", "get_instance_pool", "main"]

/-- The outcomes of the external calls the script can make in one run.
Each field is the value the corresponding SDK/API call returns, or the
exception it raises. -/
structure Oracle where
  /-- Call `Run.get_context(allow_offline=False)`: the run's workspace, or a
  raise when running offline. -/
  run_get_context : Except PyErr Workspace
  /-- Call `vault.get_secret(name)` on the default key vault. -/
  get_secret : String → Except PyErr String
  /-- Call `Workspace(subscription_id, resource_group, name, auth=auth)` in the
  in-run branch. -/
  workspace_connect : Except PyErr Workspace
  /-- Call `Workspace.from_config()` in the offline branch. -/
  workspace_from_config : Except PyErr Workspace
  /-- Call `dbricks_client.auth_azuread(...)`. -/
  auth_azuread : Except PyErr Unit
  /-- POST `token/create`: the response dict. -/
  token_create : Except PyErr (List (String × String))
  /-- Call `ComputeTarget.attach(...)` (unreachable, see
  `create_databricks_compute`). -/
  compute_attach : Except PyErr ComputeTargetObj
  /-- Call `compute_target.wait_for_completion(show_output=True)`. -/
  compute_wait : Except PyErr Unit
  /-- GET `instance-pools/list`, first call. -/
  pools_list1 : Except PyErr PoolsListResponse
  /-- POST `instance-pools/create`. -/
  pools_create : Except PyErr Unit
  /-- GET `instance-pools/list`, second call (after create). -/
  pools_list2 : Except PyErr PoolsListResponse
  /-- Call `Datastore(aml_workspace, name)`. -/
  get_datastore : String → Except PyErr Unit
  /-- Call `open(path).read()` on the notebook source file. -/
  file_read : String → Except PyErr String
  /-- POST `workspace/mkdirs`. -/
  workspace_mkdirs : Except PyErr Unit
  /-- POST `workspace/import`. -/
  workspace_import : Except PyErr Unit
  /-- Call `DatabricksStep(...)` construction. -/
  step_create : Except PyErr Unit
  /-- Call `ml_pipeline.validate()`. -/
  pipeline_validate : Except PyErr Unit
  /-- Call `ml_pipeline.publish(...)`. -/
  pipeline_publish : Except PyErr Unit

/-- Embeds `get_databricks_compute(workspace, compute_name)` (lines 19-29): `None`
when the name is not a key of `workspace.compute_targets`; the target when it
is truthy and of exact type `DatabricksCompute`; `ValueError` otherwise. -/
def get_databricks_compute (workspace : Workspace) (compute_name : String) :
    Except PyErr (Option ComputeTargetObj) :=
  match lookupStr workspace.compute_targets compute_name with
  | none => .ok none
  | some compute_target =>
    if objTruthy compute_target &&
        decide (compute_target.ctype = CTType.databricksCompute) then
      .ok (some compute_target)
    else
      .error (.valueError
        ("Compute target " ++ compute_target.objName ++ " is of different type"))

/-- Embeds `create_databricks_compute(workspace, compute_name, access_token)`
(lines 32-48).  Building the attach configuration evaluates
`args.databricks_workspace_name`; `args` is resolved in the module scope
(the function is defined at module level, not nested in `main`), and
`module_scope_names` has no binding for it, so the lookup raises
`NameError` before `ComputeTarget.attach` ever runs. -/
def create_databricks_compute (o : Oracle) (_workspace : Workspace)
    (compute_name : String) (_access_token : String) : M ComputeTargetObj :=
  if module_scope_names.contains "args" then
    M.bind (call (Event.computeAttach compute_name) o.compute_attach)
      (fun compute_target =>
        M.bind (call Event.computeWait o.compute_wait)
          (fun _ => M.pure compute_target))
  else
    pyRaise (PyErr.nameError "args")

/-- UTF-8 encoding of one Unicode code point. -/
def utf8EncodeNat (c : Nat) : List Nat :=
  if c < 0x80 then [c]
  else if c < 0x800 then [0xC0 ||| (c >>> 6), 0x80 ||| (c &&& 0x3F)]
  else if c < 0x10000 then
    [0xE0 ||| (c >>> 12), 0x80 ||| ((c >>> 6) &&& 0x3F), 0x80 ||| (c &&& 0x3F)]
  else
    [0xF0 ||| (c >>> 18), 0x80 ||| ((c >>> 12) &&& 0x3F),
     0x80 ||| ((c >>> 6) &&& 0x3F), 0x80 ||| (c &&& 0x3F)]

/-- The UTF-8 encoding of the notebook text, as a byte list
(`file_content.encode('utf-8')`). -/
def utf8_bytes (s : String) : List Nat :=
  (s.data.map (fun c => utf8EncodeNat c.toNat)).flatten

/-- Whether `s` begins with `pre`, on the character lists. -/
def listIsPre : List Char → List Char → Bool
  | [], _ => true
  | _, [] => false
  | a :: as, b :: bs => a == b && listIsPre as bs

/-- Whether the string `s` starts with `pre`. -/
def strStartsWith (s pre : String) : Bool := listIsPre pre.data s.data

/-- Embeds `upload_notebook(dbricks_client, notebook_folder, notebook_dir,
notebook_name)` (lines 51-88): read the notebook file, hash its UTF-8 bytes,
mkdir the content-addressed subfolder, import the notebook, return its path.
`sha1_hexdigest` stands for `hashlib.sha1(...).hexdigest()`; the Base-64
payload of `workspace/import` is not tracked (no claim depends on it). -/
def upload_notebook (sha1_hexdigest : List Nat → String) (o : Oracle)
    (notebook_folder notebook_dir notebook_name : String) : M String :=
  M.bind (call (Event.fileRead (notebook_dir ++ "/" ++ notebook_name ++ ".py"))
      (o.file_read (notebook_dir ++ "/" ++ notebook_name ++ ".py")))
    (fun file_content =>
      let notebook_content := utf8_bytes file_content
      let notebook_checksum := sha1_hexdigest notebook_content
      let notebook_subfolder := notebook_folder ++ "/" ++ notebook_checksum
      let notebook_path := notebook_subfolder ++ "/" ++ notebook_name
      M.bind (call (Event.workspaceMkdirs notebook_subfolder) o.workspace_mkdirs)
        (fun _ =>
          M.bind (call (Event.workspaceImport notebook_path) o.workspace_import)
            (fun _ => M.pure notebook_path)))

/-- The loop body of `get_instance_pool` (lines 103-105): scan the pools in
order; for each, index `pool["instance_pool_name"]` (a `KeyError` if absent),
and on the first name match return `pool["instance_pool_id"]` (again a
possible `KeyError`). -/
def find_pool : List PoolInfo → String → Except PyErr (Option String)
  | [], _ => .ok none
  | pool :: rest, pool_name =>
    match dictGetStr pool.kvs "instance_pool_name" with
    | .error e => .error e
    | .ok name =>
      if name = pool_name then
        match dictGetStr pool.kvs "instance_pool_id" with
        | .error e => .error e
        | .ok pid => .ok (some pid)
      else
        find_pool rest pool_name

/-- Embeds `get_instance_pool(dbricks_client, pool_name)` (lines 91-106): GET
`instance-pools/list` (outcome `list_response`), then return `None` when the
`instance_pools` key is absent, else scan for the first pool with the given
name. -/
def get_instance_pool (list_response : Except PyErr PoolsListResponse)
    (pool_name : String) : M (Option String) :=
  ⟨[Event.instancePoolsList],
    match list_response with
    | .error e => .error e
    | .ok response =>
      match response.instance_pools with
      | some pools => find_pool pools pool_name
      | none => .ok none⟩

/-- The parsed command line (lines 113-124), defaults applied. -/
structure Args where
  databricks_workspace_name : String
  build_id : String
deriving DecidableEq, Repr

/-- Modelled from the argparse declarations in `main` (lines 113-124): the
parser knows exactly the options `--databricks_workspace_name` and
`--build_id`, each taking one value.  This models argparse's behaviour on
`--flag value` token sequences: an unrecognized token is an error, a missing
value is an error, and (as in argparse) a value that itself looks like an
option token (starts with `--`) is rejected.  Accumulates the last value
seen for each flag. -/
def parse_tokens : List String → Option String → Option String →
    Except PyErr (Option String × Option String)
  | [], ws, bid => .ok (ws, bid)
  | "--databricks_workspace_name" :: v :: rest, _, bid =>
    if strStartsWith v "--" then .error (.systemExit 2)
    else parse_tokens rest (some v) bid
  | "--build_id" :: v :: rest, ws, _ =>
    if strStartsWith v "--" then .error (.systemExit 2)
    else parse_tokens rest ws (some v)
  | _, _, _ => .error (.systemExit 2)

/-- Embeds `parser.parse_args()`: `--databricks_workspace_name` is `required=True`
(parse error when absent), `--build_id` has `default="local"`.  argparse
failures exit the process with status 2. -/
def parse_args (argv : List String) : Except PyErr Args :=
  match parse_tokens argv none none with
  | .error e => .error e
  | .ok (none, _) => .error (.systemExit 2)
  | .ok (some ws, bid) => .ok ⟨ws, bid.getD "local"⟩

/-- Lines 127-169 of `main`: `try: Run.get_context(allow_offline=False)
except: aml_run = None`; in-run branch reads the three service-principal
secrets and reconnects to the workspace, offline branch loads
`Workspace.from_config()`; then the common part reads the three secrets
again for the adal context and authenticates the Databricks REST client.
Produces the `aml_workspace` used by the rest of `main`. -/
def phase_auth (o : Oracle) (databricks_workspace_name : String) : M Workspace :=
  M.bind (tryExceptNone (call Event.runGetContext o.run_get_context))
    (fun aml_run =>
      M.bind
        (match aml_run with
         | some _run_ws =>
           M.bind (call (Event.getSecret "TenantId") (o.get_secret "TenantId"))
             (fun _tenant_id =>
               M.bind (call (Event.getSecret "ClientId") (o.get_secret "ClientId"))
                 (fun _client_id =>
                   M.bind (call (Event.getSecret "ClientSecret")
                       (o.get_secret "ClientSecret"))
                     (fun _client_secret =>
                       call Event.workspaceConnect o.workspace_connect)))
         | none => call Event.workspaceFromConfig o.workspace_from_config)
        (fun aml_workspace =>
          M.bind (call (Event.getSecret "TenantId") (o.get_secret "TenantId"))
            (fun _tenant_id =>
              M.bind (call (Event.getSecret "ClientId") (o.get_secret "ClientId"))
                (fun _client_id =>
                  M.bind (call (Event.getSecret "ClientSecret")
                      (o.get_secret "ClientSecret"))
                    (fun _client_secret =>
                      M.bind (call (Event.authAzuread databricks_workspace_name)
                          o.auth_azuread)
                        (fun _ => M.pure aml_workspace))))))

/-- Lines 171-188 of `main`: look the compute target `"databricks"` up; when
it is `None`, POST `token/create`, index the response at `"token_value"`, and
call `create_databricks_compute`. -/
def phase_compute (o : Oracle) (aml_workspace : Workspace) (build_id : String) :
    M ComputeTargetObj :=
  M.bind (liftE (get_databricks_compute aml_workspace "databricks"))
    (fun dbricks_compute =>
      match dbricks_compute with
      | some c => M.pure c
      | none =>
        M.bind
          (call (Event.tokenCreate
              ("Azure ML Token generated by Build " ++ build_id))
            o.token_create)
          (fun token_response =>
            M.bind (liftE (dictGetStr token_response "token_value"))
              (fun pat_token =>
                create_databricks_compute o aml_workspace "databricks" pat_token)))

/-- Lines 193-208 of `main`: look the `"azureml_training"` pool up; when the
id is falsy, POST `instance-pools/create` and look it up again, with no check
on the second result. -/
def phase_pool (o : Oracle) : M (Option String) :=
  M.bind (get_instance_pool o.pools_list1 "azureml_training")
    (fun instance_pool_id =>
      if strTruthy instance_pool_id then
        M.pure instance_pool_id
      else
        M.bind (call (Event.instancePoolsCreate "azureml_training") o.pools_create)
          (fun _ =>
            get_instance_pool o.pools_list2 "azureml_training"))

/-- Lines 210-258 of `main`: fetch the two datastores, upload the notebook,
build the `DatabricksStep` with the notebook path and instance pool id found,
assemble the pipeline, validate it and publish it with the build id as
version. -/
def phase_build (sha1_hexdigest : List Nat → String) (o : Oracle)
    (instance_pool_id : Option String) (build_id : String) : M Unit :=
  M.bind (call (Event.getDatastore "workspaceblobstore")
      (o.get_datastore "workspaceblobstore"))
    (fun _workspace_datastore =>
      M.bind (call (Event.getDatastore "trainingdata")
          (o.get_datastore "trainingdata"))
        (fun _training_datastore =>
          M.bind (upload_notebook sha1_hexdigest o "/Shared/AzureMLDeployed"
              "code/prepare" "feature_engineering")
            (fun notebook_path =>
              M.bind (call (Event.databricksStepCreate notebook_path
                  instance_pool_id) o.step_create)
                (fun _ =>
                  M.bind (call Event.pipelineValidate o.pipeline_validate)
                    (fun _ =>
                      M.bind (call (Event.pipelinePublish "Feature Engineering"
                          build_id) o.pipeline_publish)
                        (fun _ => M.pure ()))))))

/-- Embeds `main()` (lines 109-258): parse the command line, then run the four
phases in order. -/
def script_main (sha1_hexdigest : List Nat → String) (o : Oracle)
    (argv : List String) : M Unit :=
  M.bind (liftE (parse_args argv))
    (fun args =>
      M.bind (phase_auth o args.databricks_workspace_name)
        (fun aml_workspace =>
          M.bind (phase_compute o aml_workspace args.build_id)
            (fun _dbricks_compute =>
              M.bind (phase_pool o)
                (fun instance_pool_id =>
                  phase_build sha1_hexdigest o instance_pool_id args.build_id))))

deriving instance DecidableEq for Except

/-! Concrete fixtures used by witnesses and counterexamples. -/

/-- A compute target of the expected Databricks type. -/
def dbxTarget : ComputeTargetObj := ⟨.databricksCompute, "dbx-target"⟩

/-- A compute target of a different type. -/
def amlTarget : ComputeTargetObj := ⟨.otherCompute, "aml-cluster"⟩

/-- A workspace whose `"databricks"` compute target exists with the right
type. -/
def wsAttached : Workspace := ⟨[("databricks", dbxTarget)], "westeurope", "rg", "sub", "ws"⟩

/-- A workspace with no compute targets. -/
def wsEmpty : Workspace := ⟨[], "westeurope", "rg", "sub", "ws"⟩

/-- A workspace whose `"databricks"` compute target has an unexpected type. -/
def wsWrongType : Workspace := ⟨[("databricks", amlTarget)], "westeurope", "rg", "sub", "ws"⟩

/-- A well-formed `instance_pools` entry for the `"azureml_training"` pool. -/
def poolEntry : PoolInfo :=
  ⟨[("instance_pool_name", "azureml_training"), ("instance_pool_id", "pool-1")]⟩

/-- A malformed pool entry: it has an id but no `instance_pool_name` key. -/
def poolEntryNoName : PoolInfo := ⟨[("instance_pool_id", "pool-1")]⟩

/-- A concrete stand-in for `hashlib.sha1(..).hexdigest()` used by closed
witnesses (the theorems hold for every hash function). -/
def sha1c : List Nat → String := fun bs => "h" ++ toString bs.length

/-- A command line providing the one required flag. -/
def argvOk : List String := ["--databricks_workspace_name", "dbw"]

/-- Call outcomes for a fully successful offline run: `Run.get_context`
raises (the script is run outside an Azure ML run), every other call
succeeds, the compute target is already attached and the instance pool
already exists. -/
def baseOracle : Oracle where
  run_get_context := .error (.sdkError "offline")
  get_secret := fun _ => .ok "secret"
  workspace_connect := .ok wsAttached
  workspace_from_config := .ok wsAttached
  auth_azuread := .ok ()
  token_create := .ok [("token_value", "tok")]
  compute_attach := .ok dbxTarget
  compute_wait := .ok ()
  pools_list1 := .ok ⟨some [poolEntry]⟩
  pools_create := .ok ()
  pools_list2 := .ok ⟨some [poolEntry]⟩
  get_datastore := fun _ => .ok ()
  file_read := fun _ => .ok "print(1)"
  workspace_mkdirs := .ok ()
  workspace_import := .ok ()
  step_create := .ok ()
  pipeline_validate := .ok ()
  pipeline_publish := .ok ()

/-- A run in which the instance pool does not exist and is still absent
after `instance-pools/create` (the second list response has no pools). -/
def poolAbsentOracle : Oracle :=
  { baseOracle with pools_list1 := .ok ⟨none⟩, pools_list2 := .ok ⟨none⟩ }

/-- A run in which the `"databricks"` compute target is missing from the
workspace. -/
def computeMissingOracle : Oracle :=
  { baseOracle with workspace_from_config := .ok wsEmpty }

deriving instance DecidableEq for M

/-- Test for `token/create` calls. -/
def isTokenCreate : Event → Bool
  | .tokenCreate _ => true
  | _ => false

/-- Test for `ComputeTarget.attach` calls. -/
def isComputeAttach : Event → Bool
  | .computeAttach _ => true
  | _ => false

/-- Test for `instance-pools/list` calls. -/
def isPoolsList : Event → Bool
  | .instancePoolsList => true
  | _ => false

/-- Test for `instance-pools/create` calls. -/
def isPoolsCreate : Event → Bool
  | .instancePoolsCreate _ => true
  | _ => false

/-- Test for `workspace/mkdirs` calls. -/
def isMkdirs : Event → Bool
  | .workspaceMkdirs _ => true
  | _ => false

/-- Test for `workspace/import` calls. -/
def isImport : Event → Bool
  | .workspaceImport _ => true
  | _ => false

/-- Test for pipeline publish calls. -/
def isPublish : Event → Bool
  | .pipelinePublish _ _ => true
  | _ => false

/-- All events recorded by `m` satisfy `S`. -/
def traceSub {α : Type} (m : M α) (S : Event → Prop) : Prop :=
  ∀ ev ∈ m.trace, S ev

/-- How many of the calls recorded by `m` are matched by `p`. -/
def cnt {α : Type} (p : Event → Bool) (m : M α) : Nat :=
  m.trace.countP p

/-- The stage of `main` each external operation belongs to: 0 authenticate,
1 compute attach, 2 instance pool, 3 datastore resolution, 4 notebook
upload, 5 step definition, 6 pipeline validation, 7 publication. -/
def evClass : Event → Nat
  | .runGetContext => 0
  | .getSecret _ => 0
  | .workspaceConnect => 0
  | .workspaceFromConfig => 0
  | .authAzuread _ => 0
  | .tokenCreate _ => 1
  | .computeAttach _ => 1
  | .computeWait => 1
  | .instancePoolsList => 2
  | .instancePoolsCreate _ => 2
  | .getDatastore _ => 3
  | .fileRead _ => 4
  | .workspaceMkdirs _ => 4
  | .workspaceImport _ => 4
  | .databricksStepCreate _ _ => 5
  | .pipelineValidate => 6
  | .pipelinePublish _ _ => 7

/-- A pool entry carrying both keys the script reads. -/
def pool_wf (p : PoolInfo) : Prop :=
  (lookupStr p.kvs "instance_pool_name").isSome ∧
  (lookupStr p.kvs "instance_pool_id").isSome

/-- Modelled from the claim's words: the `instance_pool_id` of the first
pool whose `instance_pool_name` equals the given name, `none` when no pool
matches. -/
def spec_first_pool_id : List PoolInfo → String → Option String
  | [], _ => none
  | p :: ps, n =>
    if lookupStr p.kvs "instance_pool_name" = some n then
      lookupStr p.kvs "instance_pool_id"
    else
      spec_first_pool_id ps n

/-- Failure-injection sites: every external call site of the script other
than `Run.get_context` (deliberately not a site: its exception is the one
the script swallows).  `getSecretRun` and `workspaceConnect` are the in-run
branch's sites (the secret reads of lines 136-138 and the `Workspace(...)`
reconnection of line 143, reached when `Run.get_context` succeeds);
`fromConfig` and `getSecret` are the offline branch's (`getSecret` covering
the common secret reads of lines 156-159, which the offline configuration
reaches first); `tokenCreate` is reached when the compute target is
missing; the remaining sites are reached in a run whose compute target is
attached and whose pool is created on this run. -/
inductive CallSite where
  | getSecretRun
  | workspaceConnect
  | fromConfig
  | getSecret
  | authAzuread
  | tokenCreate
  | poolsList1
  | poolsCreate
  | poolsList2
  | getDatastore
  | fileRead
  | workspaceMkdirs
  | workspaceImport
  | stepCreate
  | pipelineValidate
  | pipelinePublish
deriving DecidableEq, Repr

/-- A successful offline run in which the pool is absent on the first
lookup and created, so that every post-reconciliation call site is
exercised. -/
def poolGapOracle : Oracle :=
  { baseOracle with pools_list1 := .ok ⟨none⟩ }

/-- The call outcomes of `poolGapOracle`, with the call at site `s`
raising `e` instead of succeeding.  For the two in-run sites,
`run_get_context` succeeds so that the in-run branch is the one executed;
for the `token/create` site, the compute target is additionally missing,
else that call is not reached. -/
def failingAt : CallSite → PyErr → Oracle
  | .getSecretRun, e =>
    { poolGapOracle with run_get_context := .ok wsAttached,
                         get_secret := fun _ => .error e }
  | .workspaceConnect, e =>
    { poolGapOracle with run_get_context := .ok wsAttached,
                         workspace_connect := .error e }
  | .fromConfig, e => { poolGapOracle with workspace_from_config := .error e }
  | .getSecret, e => { poolGapOracle with get_secret := fun _ => .error e }
  | .authAzuread, e => { poolGapOracle with auth_azuread := .error e }
  | .tokenCreate, e =>
    { poolGapOracle with workspace_from_config := .ok wsEmpty,
                         token_create := .error e }
  | .poolsList1, e => { poolGapOracle with pools_list1 := .error e }
  | .poolsCreate, e => { poolGapOracle with pools_create := .error e }
  | .poolsList2, e => { poolGapOracle with pools_list2 := .error e }
  | .getDatastore, e => { poolGapOracle with get_datastore := fun _ => .error e }
  | .fileRead, e => { poolGapOracle with file_read := fun _ => .error e }
  | .workspaceMkdirs, e => { poolGapOracle with workspace_mkdirs := .error e }
  | .workspaceImport, e => { poolGapOracle with workspace_import := .error e }
  | .stepCreate, e => { poolGapOracle with step_create := .error e }
  | .pipelineValidate, e => { poolGapOracle with pipeline_validate := .error e }
  | .pipelinePublish, e => { poolGapOracle with pipeline_publish := .error e }

/-- The notebook path produced in runs over `baseOracle`-derived oracles
(content `"print(1)"`, hash function `sha1c`). -/
def nbPathC : String :=
  "/Shared/AzureMLDeployed/" ++ sha1c (utf8_bytes "print(1)") ++ "/feature_engineering"

/-! From here on, theorems only: first general lemmas about `M`, then the
per-phase lemmas, then one theorem per claim. -/

@[simp] theorem M_bind_error {α β : Type} (t : List Event) (e : PyErr)
    (f : α → M β) : M.bind ⟨t, .error e⟩ f = ⟨t, .error e⟩ := rfl

@[simp] theorem M_bind_ok {α β : Type} (t : List Event) (a : α)
    (f : α → M β) : M.bind ⟨t, .ok a⟩ f = ⟨t ++ (f a).trace, (f a).result⟩ := rfl

@[simp] theorem M_pure_trace {α : Type} (a : α) : (M.pure a).trace = [] := rfl

@[simp] theorem M_pure_result {α : Type} (a : α) : (M.pure a).result = .ok a := rfl

@[simp] theorem call_trace {α : Type} (ev : Event) (r : Except PyErr α) :
    (call ev r).trace = [ev] := rfl

@[simp] theorem call_result {α : Type} (ev : Event) (r : Except PyErr α) :
    (call ev r).result = r := rfl

@[simp] theorem liftE_trace {α : Type} (r : Except PyErr α) :
    (liftE r).trace = [] := rfl

@[simp] theorem liftE_result {α : Type} (r : Except PyErr α) :
    (liftE r).result = r := rfl

theorem M_bind_result_ok {α β : Type} {m : M α} {f : α → M β} {b : β}
    (h : (M.bind m f).result = .ok b) :
    ∃ a, m.result = .ok a ∧ (f a).result = .ok b := by
  obtain ⟨t, r⟩ := m
  cases r with
  | error e => simp at h
  | ok a => exact ⟨a, rfl, by simpa using h⟩

theorem M_bind_trace_ok {α β : Type} {m : M α} {f : α → M β} {a : α}
    (h : m.result = .ok a) :
    (M.bind m f).trace = m.trace ++ (f a).trace := by
  obtain ⟨t, r⟩ := m
  cases r with
  | error e => simp at h
  | ok a' =>
    simp only [Except.ok.injEq] at h
    subst h
    simp

theorem traceSub_bind {α β : Type} {m : M α} {f : α → M β} {S : Event → Prop}
    (hm : traceSub m S) (hf : ∀ a, traceSub (f a) S) :
    traceSub (M.bind m f) S := by
  obtain ⟨t, r⟩ := m
  cases r with
  | error e => exact hm
  | ok a =>
    intro ev hev
    rcases List.mem_append.mp hev with h1 | h2
    · exact hm ev h1
    · exact hf a ev h2

theorem traceSub_call {α : Type} {ev : Event} {r : Except PyErr α}
    {S : Event → Prop} (h : S ev) : traceSub (call ev r) S := by
  intro e he
  have he' : e = ev := List.mem_singleton.mp he
  rwa [he']

theorem traceSub_pure {α : Type} {a : α} {S : Event → Prop} :
    traceSub (M.pure a) S := by
  intro e he
  simp [M.pure] at he

theorem traceSub_liftE {α : Type} {r : Except PyErr α} {S : Event → Prop} :
    traceSub (liftE r) S := by
  intro e he
  simp [liftE] at he

theorem traceSub_pyRaise {α : Type} {e : PyErr} {S : Event → Prop} :
    traceSub (pyRaise e : M α) S := by
  intro x hx
  simp [pyRaise] at hx

theorem traceSub_tryExceptNone {α : Type} {m : M α} {S : Event → Prop}
    (h : traceSub m S) : traceSub (tryExceptNone m) S := by
  obtain ⟨t, r⟩ := m
  cases r with
  | error e => exact h
  | ok a => exact h

theorem cnt_bind_le {α β : Type} {p : Event → Bool} {m : M α} {f : α → M β}
    {k n : Nat} (hm : cnt p m ≤ k) (hf : ∀ a, cnt p (f a) ≤ n) :
    cnt p (M.bind m f) ≤ k + n := by
  obtain ⟨t, r⟩ := m
  cases r with
  | error e => exact le_trans hm (Nat.le_add_right _ _)
  | ok a =>
    have heq : cnt p (M.bind ⟨t, .ok a⟩ f) = t.countP p + (f a).trace.countP p := by
      simp [cnt, List.countP_append]
    rw [heq]
    exact Nat.add_le_add hm (hf a)

theorem cnt_call_le_one {α : Type} {p : Event → Bool} {ev : Event}
    {r : Except PyErr α} : cnt p (call ev r) ≤ 1 := by
  simp [cnt, call, List.countP_cons]
  split <;> simp

theorem cnt_zero_of_traceSub {α : Type} {p : Event → Bool} {m : M α}
    (h : traceSub m (fun ev => p ev = false)) : cnt p m = 0 := by
  rw [cnt, List.countP_eq_zero]
  intro a ha
  simp [h a ha]

theorem cnt_pure {α : Type} {p : Event → Bool} {a : α} : cnt p (M.pure a) = 0 := rfl

theorem cnt_liftE {α : Type} {p : Event → Bool} {r : Except PyErr α} :
    cnt p (liftE r) = 0 := rfl

theorem cnt_pyRaise {α : Type} {p : Event → Bool} {e : PyErr} :
    cnt p (pyRaise e : M α) = 0 := rfl

theorem cnt_tryExceptNone {α : Type} {p : Event → Bool} {m : M α} :
    cnt p (tryExceptNone m) = cnt p m := by
  obtain ⟨t, r⟩ := m
  cases r <;> rfl

theorem create_databricks_compute_eq {o : Oracle} {ws : Workspace}
    {cn tok : String} :
    create_databricks_compute o ws cn tok = ⟨[], .error (.nameError "args")⟩ := by
  simp only [create_databricks_compute, pyRaise]
  rw [if_neg (by decide)]

theorem get_databricks_compute_none {ws : Workspace}
    (h : lookupStr ws.compute_targets "databricks" = none) :
    get_databricks_compute ws "databricks" = .ok none := by
  unfold get_databricks_compute
  rw [h]

theorem get_databricks_compute_some {ws : Workspace} {t : ComputeTargetObj}
    (h : lookupStr ws.compute_targets "databricks" = some t)
    (ht : t.ctype = CTType.databricksCompute) :
    get_databricks_compute ws "databricks" = .ok (some t) := by
  unfold get_databricks_compute
  rw [h]
  simp [objTruthy, ht]

theorem phase_compute_attached {o : Oracle} {ws : Workspace} {b : String}
    {t : ComputeTargetObj}
    (h : lookupStr ws.compute_targets "databricks" = some t)
    (ht : t.ctype = CTType.databricksCompute) :
    phase_compute o ws b = ⟨[], .ok t⟩ := by
  unfold phase_compute
  rw [get_databricks_compute_some h ht]
  rfl

theorem phase_compute_missing_eq {o : Oracle} {ws : Workspace} {b : String}
    (h : lookupStr ws.compute_targets "databricks" = none) :
    phase_compute o ws b =
      ⟨[Event.tokenCreate ("Azure ML Token generated by Build " ++ b)],
        match o.token_create with
        | .error e => .error e
        | .ok resp =>
          match dictGetStr resp "token_value" with
          | .error e => .error e
          | .ok _ => .error (.nameError "args")⟩ := by
  unfold phase_compute
  rw [get_databricks_compute_none h]
  cases htc : o.token_create with
  | error e => simp [liftE, M.bind, call, htc]
  | ok resp =>
    cases hd : dictGetStr resp "token_value" with
    | error e => simp [liftE, M.bind, call, htc, hd]
    | ok tok => simp [liftE, M.bind, call, htc, hd, create_databricks_compute_eq]

theorem phase_compute_missing_trace {o : Oracle} {ws : Workspace} {b : String}
    (h : lookupStr ws.compute_targets "databricks" = none) :
    (phase_compute o ws b).trace =
      [Event.tokenCreate ("Azure ML Token generated by Build " ++ b)] := by
  rw [phase_compute_missing_eq h]

theorem phase_compute_missing_not_ok {o : Oracle} {ws : Workspace} {b : String}
    (h : lookupStr ws.compute_targets "databricks" = none) :
    ∀ c, (phase_compute o ws b).result ≠ .ok c := by
  intro c hc
  rw [phase_compute_missing_eq h] at hc
  cases htc : o.token_create with
  | error e => rw [htc] at hc; simp at hc
  | ok resp =>
    rw [htc] at hc
    simp at hc
    cases hd : dictGetStr resp "token_value" with
    | error e => rw [hd] at hc; simp at hc
    | ok tok => rw [hd] at hc; simp at hc

theorem phase_compute_ok_trace {o : Oracle} {ws : Workspace} {b : String}
    {c : ComputeTargetObj} (h : (phase_compute o ws b).result = .ok c) :
    (phase_compute o ws b).trace = [] := by
  cases hl : lookupStr ws.compute_targets "databricks" with
  | none => exact absurd h (phase_compute_missing_not_ok hl c)
  | some t =>
    by_cases ht : t.ctype = CTType.databricksCompute
    · rw [phase_compute_attached hl ht]
    · exfalso
      have hg : get_databricks_compute ws "databricks" =
          .error (.valueError
            ("Compute target " ++ t.objName ++ " is of different type")) := by
        unfold get_databricks_compute
        rw [hl]
        simp [objTruthy, ht]
      unfold phase_compute at h
      rw [hg] at h
      simp [liftE, M.bind] at h

theorem get_instance_pool_trace {r : Except PyErr PoolsListResponse}
    {n : String} : (get_instance_pool r n).trace = [Event.instancePoolsList] := rfl

theorem get_instance_pool_eta (r : Except PyErr PoolsListResponse)
    (n : String) :
    get_instance_pool r n =
      ⟨[Event.instancePoolsList], (get_instance_pool r n).result⟩ := rfl

theorem traceSub_get_instance_pool {r : Except PyErr PoolsListResponse}
    {n : String} {S : Event → Prop} (h : S Event.instancePoolsList) :
    traceSub (get_instance_pool r n) S := by
  intro ev hev
  have he : ev = Event.instancePoolsList := List.mem_singleton.mp hev
  rwa [he]

theorem phase_pool_first_found {o : Oracle} {id1 : Option String}
    (h : (get_instance_pool o.pools_list1 "azureml_training").result = .ok id1)
    (ht : strTruthy id1 = true) :
    phase_pool o = ⟨[Event.instancePoolsList], .ok id1⟩ := by
  unfold phase_pool
  rw [get_instance_pool_eta o.pools_list1 "azureml_training", h]
  simp [ht, M.pure]

theorem phase_pool_created {o : Oracle} {id1 : Option String}
    (h : (get_instance_pool o.pools_list1 "azureml_training").result = .ok id1)
    (ht : strTruthy id1 = false) (hc : o.pools_create = .ok ()) :
    phase_pool o =
      ⟨[Event.instancePoolsList, Event.instancePoolsCreate "azureml_training",
        Event.instancePoolsList],
        (get_instance_pool o.pools_list2 "azureml_training").result⟩ := by
  unfold phase_pool
  rw [get_instance_pool_eta o.pools_list1 "azureml_training", h]
  rw [M_bind_ok]
  simp only [ht, Bool.false_eq_true, if_false, hc]
  rw [get_instance_pool_eta o.pools_list2 "azureml_training"]
  simp [call, M.bind]

theorem phase_pool_shapes (o : Oracle) :
    (phase_pool o).trace = [Event.instancePoolsList] ∨
    (phase_pool o).trace =
      [Event.instancePoolsList, Event.instancePoolsCreate "azureml_training"] ∨
    (phase_pool o).trace =
      [Event.instancePoolsList, Event.instancePoolsCreate "azureml_training",
       Event.instancePoolsList] := by
  unfold phase_pool
  rw [get_instance_pool_eta o.pools_list1 "azureml_training"]
  cases hr : (get_instance_pool o.pools_list1 "azureml_training").result with
  | error e => left; rfl
  | ok id =>
    cases ht : strTruthy id with
    | true => left; simp [ht, M.pure]
    | false =>
      cases hc : o.pools_create with
      | error e =>
        right; left
        simp [ht, hc, M.bind, call]
      | ok u =>
        right; right
        rw [M_bind_ok]
        simp only [ht, Bool.false_eq_true, if_false, hc]
        rw [get_instance_pool_eta o.pools_list2 "azureml_training"]
        simp [call, M.bind]

theorem traceSub_phase_pool {o : Oracle} {S : Event → Prop}
    (hl : S Event.instancePoolsList)
    (hc : S (Event.instancePoolsCreate "azureml_training")) :
    traceSub (phase_pool o) S := by
  unfold phase_pool
  apply traceSub_bind (traceSub_get_instance_pool hl)
  intro id
  split
  · exact traceSub_pure
  · apply traceSub_bind (traceSub_call hc)
    intro u
    exact traceSub_get_instance_pool hl

theorem traceSub_phase_auth {o : Oracle} {n : String} :
    traceSub (phase_auth o n) (fun ev => evClass ev = 0) := by
  unfold phase_auth
  refine traceSub_bind (traceSub_tryExceptNone (traceSub_call ?_)) fun aml_run => ?_
  · rfl
  refine traceSub_bind ?_ fun ws => ?_
  · cases aml_run with
    | some run_ws =>
      refine traceSub_bind (traceSub_call ?_) fun u1 => ?_
      · rfl
      refine traceSub_bind (traceSub_call ?_) fun u2 => ?_
      · rfl
      refine traceSub_bind (traceSub_call ?_) fun u3 => ?_
      · rfl
      exact traceSub_call rfl
    | none => exact traceSub_call rfl
  · refine traceSub_bind (traceSub_call ?_) fun u1 => ?_
    · rfl
    refine traceSub_bind (traceSub_call ?_) fun u2 => ?_
    · rfl
    refine traceSub_bind (traceSub_call ?_) fun u3 => ?_
    · rfl
    refine traceSub_bind (traceSub_call ?_) fun u4 => ?_
    · rfl
    exact traceSub_pure

theorem traceSub_create_databricks_compute {o : Oracle} {ws : Workspace}
    {cn tok : String} {S : Event → Prop} :
    traceSub (create_databricks_compute o ws cn tok) S := by
  rw [create_databricks_compute_eq]
  intro ev hev
  simp at hev

theorem traceSub_phase_compute {o : Oracle} {ws : Workspace} {b : String} :
    traceSub (phase_compute o ws b) (fun ev => evClass ev = 1) := by
  unfold phase_compute
  refine traceSub_bind traceSub_liftE fun dbricks => ?_
  cases dbricks with
  | some c => exact traceSub_pure
  | none =>
    refine traceSub_bind (traceSub_call ?_) fun resp => ?_
    · rfl
    refine traceSub_bind traceSub_liftE fun tok => ?_
    exact traceSub_create_databricks_compute

theorem traceSub_upload_notebook {sha1 : List Nat → String} {o : Oracle}
    {folder dir name : String} {S : Event → Prop}
    (hr : ∀ p, S (Event.fileRead p)) (hm : ∀ p, S (Event.workspaceMkdirs p))
    (hi : ∀ p, S (Event.workspaceImport p)) :
    traceSub (upload_notebook sha1 o folder dir name) S := by
  unfold upload_notebook
  refine traceSub_bind (traceSub_call (hr _)) fun content => ?_
  refine traceSub_bind (traceSub_call (hm _)) fun u1 => ?_
  refine traceSub_bind (traceSub_call (hi _)) fun u2 => ?_
  exact traceSub_pure

theorem traceSub_phase_build {sha1 : List Nat → String} {o : Oracle}
    {ipid : Option String} {b : String} :
    traceSub (phase_build sha1 o ipid b) (fun ev => 3 ≤ evClass ev) := by
  unfold phase_build
  refine traceSub_bind (traceSub_call ?_) fun u1 => ?_
  · simp [evClass]
  refine traceSub_bind (traceSub_call ?_) fun u2 => ?_
  · simp [evClass]
  refine traceSub_bind
    (traceSub_upload_notebook (fun p => by simp [evClass]) (fun p => by simp [evClass])
      (fun p => by simp [evClass])) fun nbp => ?_
  refine traceSub_bind (traceSub_call ?_) fun u3 => ?_
  · simp [evClass]
  refine traceSub_bind (traceSub_call ?_) fun u4 => ?_
  · simp [evClass]
  refine traceSub_bind (traceSub_call ?_) fun u5 => ?_
  · simp [evClass]
  exact traceSub_pure

theorem upload_notebook_ok {sha1 : List Nat → String} {o : Oracle}
    {folder dir name content : String}
    (hread : o.file_read (dir ++ "/" ++ name ++ ".py") = .ok content)
    (hmk : o.workspace_mkdirs = .ok ())
    (him : o.workspace_import = .ok ()) :
    upload_notebook sha1 o folder dir name =
      ⟨[Event.fileRead (dir ++ "/" ++ name ++ ".py"),
        Event.workspaceMkdirs (folder ++ "/" ++ sha1 (utf8_bytes content)),
        Event.workspaceImport
          (folder ++ "/" ++ sha1 (utf8_bytes content) ++ "/" ++ name)],
        .ok (folder ++ "/" ++ sha1 (utf8_bytes content) ++ "/" ++ name)⟩ := by
  unfold upload_notebook
  rw [hread]
  simp [call, M.bind, M.pure, hmk, him]

theorem phase_build_ok_classes {sha1 : List Nat → String} {o : Oracle}
    {ipid : Option String} {b : String}
    (h : (phase_build sha1 o ipid b).result = .ok ()) :
    (phase_build sha1 o ipid b).trace.map evClass = [3, 3, 4, 4, 4, 5, 6, 7] := by
  unfold phase_build upload_notebook at h ⊢
  cases h1 : o.get_datastore "workspaceblobstore" with
  | error e =>
    rw [h1] at h
    simp [call, M.bind] at h
  | ok u1 =>
    rw [h1] at h
    cases h2 : o.get_datastore "trainingdata" with
    | error e =>
      rw [h2] at h
      simp [call, M.bind] at h
    | ok u2 =>
      rw [h2] at h
      cases h3 : o.file_read ("code/prepare" ++ "/" ++ "feature_engineering" ++ ".py") with
      | error e =>
        rw [h3] at h
        simp [call, M.bind] at h
      | ok content =>
        rw [h3] at h
        cases h4 : o.workspace_mkdirs with
        | error e =>
          rw [h4] at h
          simp [call, M.bind] at h
        | ok u4 =>
          rw [h4] at h
          cases h5 : o.workspace_import with
          | error e =>
            rw [h5] at h
            simp [call, M.bind] at h
          | ok u5 =>
            rw [h5] at h
            cases h6 : o.step_create with
            | error e =>
              rw [h6] at h
              simp [call, M.bind] at h
            | ok u6 =>
              rw [h6] at h
              cases h7 : o.pipeline_validate with
              | error e =>
                rw [h7] at h
                simp [call, M.bind] at h
              | ok u7 =>
                rw [h7] at h
                cases h8 : o.pipeline_publish with
                | error e =>
                  rw [h8] at h
                  simp [call, M.bind] at h
                | ok u8 =>
                  rw [h8] at h
                  simp [call, M.bind, M.pure, evClass]

theorem pairwise_le_of_const {c : Nat} {l : List Nat} (h : ∀ x ∈ l, x = c) :
    l.Pairwise (· ≤ ·) := by
  induction l with
  | nil => exact List.Pairwise.nil
  | cons a t ih =>
    refine List.Pairwise.cons ?_ (ih fun x hx => h x (List.mem_cons_of_mem a hx))
    intro b hb
    rw [h a (List.mem_cons_self a t), h b (List.mem_cons_of_mem a hb)]

theorem parse_tokens_error_of_no_match (t : List String) (x x1 : Option String)
    (h1 : t = [] → False)
    (h2 : ∀ (v : String) (rest : List String),
      t = "--databricks_workspace_name" :: v :: rest → False)
    (h3 : ∀ (v : String) (rest : List String),
      t = "--build_id" :: v :: rest → False) :
    parse_tokens t x x1 = .error (.systemExit 2) := by
  rw [parse_tokens.eq_def]
  split
  · exact absurd rfl h1
  · exact absurd rfl (h2 _ _)
  · exact absurd rfl (h3 _ _)
  · rfl

theorem parse_tokens_no_ws :
    ∀ (argv : List String) (ws bid : Option String),
      "--databricks_workspace_name" ∉ argv →
      ∀ r, parse_tokens argv ws bid = .ok r → r.1 = ws := by
  intro argv ws bid
  induction argv, ws, bid using parse_tokens.induct with
  | case1 ws bid =>
    intro _ r hr
    obtain rfl : (ws, bid) = r := by simpa [parse_tokens] using hr
    rfl
  | case2 v rest x bid hsw =>
    intro hnot
    exact absurd (List.mem_cons_self _ _) hnot
  | case3 v rest x bid hsw ih =>
    intro hnot
    exact absurd (List.mem_cons_self _ _) hnot
  | case4 v rest ws x hsw =>
    intro hnot r hr
    simp [parse_tokens, hsw] at hr
  | case5 v rest ws x hsw ih =>
    intro hnot r hr
    simp only [parse_tokens, hsw, if_false, Bool.false_eq_true] at hr
    exact ih (fun hm => hnot (List.mem_cons_of_mem _ (List.mem_cons_of_mem _ hm))) r hr
  | case6 t x x1 h1 h2 h3 =>
    intro hnot r hr
    rw [parse_tokens_error_of_no_match t x x1 h1 h2 h3] at hr
    cases hr

theorem parse_tokens_no_bid :
    ∀ (argv : List String) (ws bid : Option String),
      "--build_id" ∉ argv →
      ∀ r, parse_tokens argv ws bid = .ok r → r.2 = bid := by
  intro argv ws bid
  induction argv, ws, bid using parse_tokens.induct with
  | case1 ws bid =>
    intro _ r hr
    obtain rfl : (ws, bid) = r := by simpa [parse_tokens] using hr
    rfl
  | case2 v rest x bid hsw =>
    intro hnot r hr
    simp [parse_tokens, hsw] at hr
  | case3 v rest x bid hsw ih =>
    intro hnot r hr
    simp only [parse_tokens, hsw, if_false, Bool.false_eq_true] at hr
    exact ih (fun hm => hnot (List.mem_cons_of_mem _ (List.mem_cons_of_mem _ hm))) r hr
  | case4 v rest ws x hsw =>
    intro hnot
    exact absurd (List.mem_cons_self _ _) hnot
  | case5 v rest ws x hsw ih =>
    intro hnot
    exact absurd (List.mem_cons_self _ _) hnot
  | case6 t x x1 h1 h2 h3 =>
    intro hnot r hr
    rw [parse_tokens_error_of_no_match t x x1 h1 h2 h3] at hr
    cases hr

theorem parse_tokens_flags_only :
    ∀ (argv : List String) (ws bid : Option String) (r : Option String × Option String),
      parse_tokens argv ws bid = .ok r →
      ∀ s ∈ argv, strStartsWith s "--" = true →
        s = "--databricks_workspace_name" ∨ s = "--build_id" := by
  intro argv ws bid
  induction argv, ws, bid using parse_tokens.induct with
  | case1 ws bid =>
    intro r _ s hs
    cases hs
  | case2 v rest x bid hsw =>
    intro r hr
    simp [parse_tokens, hsw] at hr
  | case3 v rest x bid hsw ih =>
    intro r hr s hs hssw
    simp only [parse_tokens, hsw, if_false, Bool.false_eq_true] at hr
    rcases hs with _ | ⟨_, hs⟩
    · left; rfl
    rcases hs with _ | ⟨_, hs⟩
    · exact absurd hssw (by simpa using hsw)
    · exact ih r hr s hs hssw
  | case4 v rest ws x hsw =>
    intro r hr
    simp [parse_tokens, hsw] at hr
  | case5 v rest ws x hsw ih =>
    intro r hr s hs hssw
    simp only [parse_tokens, hsw, if_false, Bool.false_eq_true] at hr
    rcases hs with _ | ⟨_, hs⟩
    · right; rfl
    rcases hs with _ | ⟨_, hs⟩
    · exact absurd hssw (by simpa using hsw)
    · exact ih r hr s hs hssw
  | case6 t x x1 h1 h2 h3 =>
    intro r hr
    rw [parse_tokens_error_of_no_match t x x1 h1 h2 h3] at hr
    cases hr

theorem find_pool_wf_eq (pools : List PoolInfo) (n : String)
    (hwf : ∀ p ∈ pools, pool_wf p) :
    find_pool pools n = .ok (spec_first_pool_id pools n) := by
  induction pools with
  | nil => rfl
  | cons p ps ih =>
    obtain ⟨hn, hi⟩ := hwf p (List.mem_cons_self p ps)
    obtain ⟨nm, hnm⟩ := Option.isSome_iff_exists.mp hn
    obtain ⟨pid, hpid⟩ := Option.isSome_iff_exists.mp hi
    have hdn : dictGetStr p.kvs "instance_pool_name" = .ok nm := by
      unfold dictGetStr
      rw [hnm]
    have hdi : dictGetStr p.kvs "instance_pool_id" = .ok pid := by
      unfold dictGetStr
      rw [hpid]
    by_cases hni : nm = n
    · subst hni
      simp [find_pool, spec_first_pool_id, hdn, hnm, hdi, hpid]
    · simp [find_pool, spec_first_pool_id, hdn, hnm, hni,
        ih fun q hq => hwf q (List.mem_cons_of_mem p hq)]

/-- C2: the compute target `"databricks"` being absent, the create branch of
`main` runs `create_databricks_compute`, which evaluates the unbound
module-scope name `args` and so raises `NameError` (before any
`ComputeTarget.attach` call); hence the create branch can never complete
successfully. -/
theorem C2_create_compute_name_error :
    (∀ (o : Oracle) (ws : Workspace) (cn tok : String),
      (create_databricks_compute o ws cn tok).result = .error (.nameError "args") ∧
      (create_databricks_compute o ws cn tok).trace.countP isComputeAttach = 0) ∧
    (∀ (o : Oracle) (ws : Workspace) (b : String),
      lookupStr ws.compute_targets "databricks" = none →
      ∀ c, (phase_compute o ws b).result ≠ .ok c) := by
  constructor
  · intro o ws cn tok
    rw [create_databricks_compute_eq]
    exact ⟨rfl, rfl⟩
  · intro o ws b h
    exact phase_compute_missing_not_ok h

/-- C2 witness at a concrete missing-compute run. -/
theorem C2_create_compute_name_error_witness :
    (create_databricks_compute baseOracle wsEmpty "databricks" "tok").result =
      .error (.nameError "args") ∧
    (phase_compute baseOracle wsEmpty "local").result ≠ .ok dbxTarget :=
  ⟨(C2_create_compute_name_error.1 baseOracle wsEmpty "databricks" "tok").1,
   C2_create_compute_name_error.2 baseOracle wsEmpty "local" (by decide) dbxTarget⟩

/-- C3: for every workspace and compute name, `get_databricks_compute`
returns `None` when the name is not among the workspace's compute targets,
returns the target when it exists and is a `DatabricksCompute`, and raises a
`ValueError` when an existing compute target has a different type. -/
theorem C3_get_databricks_compute_spec (workspace : Workspace)
    (compute_name : String) :
    (lookupStr workspace.compute_targets compute_name = none →
      get_databricks_compute workspace compute_name = .ok none) ∧
    (∀ t, lookupStr workspace.compute_targets compute_name = some t →
      t.ctype = CTType.databricksCompute →
      get_databricks_compute workspace compute_name = .ok (some t)) ∧
    (∀ t, lookupStr workspace.compute_targets compute_name = some t →
      t.ctype ≠ CTType.databricksCompute →
      get_databricks_compute workspace compute_name =
        .error (.valueError
          ("Compute target " ++ t.objName ++ " is of different type"))) := by
  refine ⟨?_, ?_, ?_⟩
  · intro h
    unfold get_databricks_compute
    rw [h]
  · intro t h ht
    unfold get_databricks_compute
    rw [h]
    simp [objTruthy, ht]
  · intro t h ht
    unfold get_databricks_compute
    rw [h]
    simp [objTruthy, ht]

/-- C3 witness: the three cases at concrete workspaces. -/
theorem C3_get_databricks_compute_spec_witness :
    get_databricks_compute wsEmpty "databricks" = .ok none ∧
    get_databricks_compute wsAttached "databricks" = .ok (some dbxTarget) ∧
    get_databricks_compute wsWrongType "databricks" =
      .error (.valueError
        ("Compute target " ++ amlTarget.objName ++ " is of different type")) :=
  ⟨(C3_get_databricks_compute_spec wsEmpty "databricks").1 (by decide),
   (C3_get_databricks_compute_spec wsAttached "databricks").2.1 dbxTarget
     (by decide) (by decide),
   (C3_get_databricks_compute_spec wsWrongType "databricks").2.2 amlTarget
     (by decide) (by decide)⟩

/-- C6 counterexample: on a response whose single pool entry lacks the
`instance_pool_name` key, `get_instance_pool` raises `KeyError` rather than
returning `None` or a pool id, so the claimed totality fails. -/
theorem C6_get_instance_pool_keyerror :
    (get_instance_pool (.ok ⟨some [poolEntryNoName]⟩) "azureml_training").result =
      .error (.keyError "instance_pool_name") ∧
    (get_instance_pool (.ok ⟨some [poolEntryNoName]⟩)
        "azureml_training").result.isOk = false := by
  decide

/-- C6 (amended): `get_instance_pool` returns `None` when the response
lacks the `instance_pools` key; and over responses whose pool entries all
carry the `instance_pool_name` and `instance_pool_id` keys, it is total and
returns the `instance_pool_id` of the first pool whose `instance_pool_name`
equals the given name (`None` when no pool matches); a pool entry missing
those keys instead makes it raise `KeyError`. -/
theorem C6_get_instance_pool_amended (resp : PoolsListResponse)
    (pool_name : String) :
    (resp.instance_pools = none →
      (get_instance_pool (.ok resp) pool_name).result = .ok none) ∧
    (∀ pools, resp.instance_pools = some pools → (∀ p ∈ pools, pool_wf p) →
      (get_instance_pool (.ok resp) pool_name).result =
        .ok (spec_first_pool_id pools pool_name)) := by
  constructor
  · intro h
    simp [get_instance_pool, h]
  · intro pools h hwf
    simp [get_instance_pool, h, find_pool_wf_eq pools pool_name hwf]

/-- C6 witness: the missing-key case and a well-formed single-pool case. -/
theorem C6_get_instance_pool_amended_witness :
    (get_instance_pool (.ok ⟨none⟩) "azureml_training").result = .ok none ∧
    (get_instance_pool (.ok ⟨some [poolEntry]⟩) "azureml_training").result =
      .ok (spec_first_pool_id [poolEntry] "azureml_training") :=
  ⟨(C6_get_instance_pool_amended ⟨none⟩ "azureml_training").1 rfl,
   (C6_get_instance_pool_amended ⟨some [poolEntry]⟩ "azureml_training").2
     [poolEntry] rfl
     (by
       intro p hp
       rw [List.mem_singleton] at hp
       subst hp
       exact ⟨by decide, by decide⟩)⟩

/-- C7: the parser knows exactly the flags `--databricks_workspace_name`
and `--build_id`; every invocation omitting `--databricks_workspace_name`
fails; when `--build_id` is omitted its value is `"local"`. -/
theorem C7_parse_args_spec :
    (∀ argv, "--databricks_workspace_name" ∉ argv →
      ∀ a, parse_args argv ≠ .ok a) ∧
    (∀ argv a, parse_args argv = .ok a → "--build_id" ∉ argv →
      a.build_id = "local") ∧
    (∀ argv a, parse_args argv = .ok a →
      ∀ s ∈ argv, strStartsWith s "--" = true →
        s = "--databricks_workspace_name" ∨ s = "--build_id") := by
  refine ⟨?_, ?_, ?_⟩
  · intro argv hnot a ha
    unfold parse_args at ha
    cases hpt : parse_tokens argv none none with
    | error e => rw [hpt] at ha; cases ha
    | ok r =>
      have h1 : r.1 = none := parse_tokens_no_ws argv none none hnot r hpt
      rw [hpt] at ha
      obtain ⟨r1, r2⟩ := r
      cases r1 with
      | none => cases ha
      | some ws => cases h1
  · intro argv a ha hnot
    unfold parse_args at ha
    cases hpt : parse_tokens argv none none with
    | error e => rw [hpt] at ha; cases ha
    | ok r =>
      have h2 : r.2 = none := parse_tokens_no_bid argv none none hnot r hpt
      rw [hpt] at ha
      obtain ⟨r1, r2⟩ := r
      cases r2 with
      | none =>
        cases r1 with
        | none => cases ha
        | some ws =>
          cases ha
          rfl
      | some b => cases h2
  · intro argv a ha s hs hsw
    unfold parse_args at ha
    cases hpt : parse_tokens argv none none with
    | error e => rw [hpt] at ha; cases ha
    | ok r => exact parse_tokens_flags_only argv none none r hpt s hs hsw

/-- C7 witness at concrete command lines. -/
theorem C7_parse_args_spec_witness :
    parse_args ["--build_id", "b42"] ≠ .ok ⟨"dbw", "b42"⟩ ∧
    (parse_args argvOk = .ok ⟨"dbw", "local"⟩ → Args.build_id ⟨"dbw", "local"⟩ = "local") ∧
    ("--databricks_workspace_name" = "--databricks_workspace_name" ∨
      "--databricks_workspace_name" = "--build_id") :=
  ⟨C7_parse_args_spec.1 ["--build_id", "b42"] (by decide) ⟨"dbw", "b42"⟩,
   fun h => C7_parse_args_spec.2.1 argvOk ⟨"dbw", "local"⟩ h (by decide),
   C7_parse_args_spec.2.2 argvOk ⟨"dbw", "local"⟩ (by decide)
     "--databricks_workspace_name" (by decide) (by decide)⟩

/-- C10: `upload_notebook` returns the path
`notebook_folder/sha1(content)/notebook_name` where `sha1(content)` is the
hex digest of the UTF-8 encoded notebook content; consequently two runs
with identical notebook content, folder and name return the identical path
(the path is deterministic and content-addressed). -/
theorem C10_upload_notebook_path (sha1 : List Nat → String) (o o' : Oracle)
    (folder dir name content : String)
    (h : o.file_read (dir ++ "/" ++ name ++ ".py") = .ok content)
    (hmk : o.workspace_mkdirs = .ok ()) (him : o.workspace_import = .ok ())
    (h' : o'.file_read (dir ++ "/" ++ name ++ ".py") = .ok content)
    (hmk' : o'.workspace_mkdirs = .ok ()) (him' : o'.workspace_import = .ok ()) :
    (upload_notebook sha1 o folder dir name).result =
      .ok (folder ++ "/" ++ sha1 (utf8_bytes content) ++ "/" ++ name) ∧
    (upload_notebook sha1 o' folder dir name).result =
      (upload_notebook sha1 o folder dir name).result := by
  have e1 := @upload_notebook_ok sha1 o folder dir name content h hmk him
  have e2 := @upload_notebook_ok sha1 o' folder dir name content h' hmk' him'
  rw [e1, e2]
  exact ⟨rfl, rfl⟩

/-- C10 witness: two different oracles with the same notebook content
produce the same content-addressed path. -/
theorem C10_upload_notebook_path_witness :
    (upload_notebook sha1c baseOracle "/Shared/AzureMLDeployed" "code/prepare"
        "feature_engineering").result =
      .ok ("/Shared/AzureMLDeployed" ++ "/" ++ sha1c (utf8_bytes "print(1)") ++
        "/" ++ "feature_engineering") ∧
    (upload_notebook sha1c poolAbsentOracle "/Shared/AzureMLDeployed"
        "code/prepare" "feature_engineering").result =
      (upload_notebook sha1c baseOracle "/Shared/AzureMLDeployed" "code/prepare"
        "feature_engineering").result :=
  C10_upload_notebook_path sha1c baseOracle poolAbsentOracle
    "/Shared/AzureMLDeployed" "code/prepare" "feature_engineering" "print(1)"
    rfl rfl rfl rfl rfl rfl

/-- C1 counterexample: with the `"azureml_training"` pool still absent after
`instance-pools/create` (both list responses lack pools), `main` does not
fail: the run completes successfully, the `DatabricksStep` being built with
`None` as its instance pool id. -/
theorem C1_pool_reconciliation_cex :
    (get_instance_pool poolAbsentOracle.pools_list1 "azureml_training").result =
      .ok none ∧
    (get_instance_pool poolAbsentOracle.pools_list2 "azureml_training").result =
      .ok none ∧
    Event.instancePoolsCreate "azureml_training" ∈
      (script_main sha1c poolAbsentOracle argvOk).trace ∧
    (script_main sha1c poolAbsentOracle argvOk).result = .ok () ∧
    Event.databricksStepCreate nbPathC none ∈
      (script_main sha1c poolAbsentOracle argvOk).trace := by
  decide

/-- C1 (amended): for the pool `"azureml_training"`, `main` calls
`get_instance_pool`; when the id found is falsy it calls `instance-pools/create`
and then `get_instance_pool` again, and uses whatever the second lookup
returns; if the pool is still absent after creation `main` does not fail:
the run proceeds, passing `None` as the instance pool id to the
`DatabricksStep`. -/
theorem C1_pool_reconciliation_amended :
    (∀ (o : Oracle) (id1 : Option String),
      (get_instance_pool o.pools_list1 "azureml_training").result = .ok id1 →
      (strTruthy id1 = true →
        phase_pool o = ⟨[Event.instancePoolsList], .ok id1⟩) ∧
      (strTruthy id1 = false → o.pools_create = .ok () →
        phase_pool o =
          ⟨[Event.instancePoolsList, Event.instancePoolsCreate "azureml_training",
            Event.instancePoolsList],
            (get_instance_pool o.pools_list2 "azureml_training").result⟩)) ∧
    ((script_main sha1c poolAbsentOracle argvOk).result = .ok () ∧
      Event.databricksStepCreate nbPathC none ∈
        (script_main sha1c poolAbsentOracle argvOk).trace) := by
  constructor
  · intro o id1 h
    exact ⟨fun ht => phase_pool_first_found h ht,
           fun ht hc => phase_pool_created h ht hc⟩
  · decide

/-- C1 witness: the found case and the create-then-refetch case at concrete
oracles. -/
theorem C1_pool_reconciliation_amended_witness :
    phase_pool baseOracle = ⟨[Event.instancePoolsList], .ok (some "pool-1")⟩ ∧
    phase_pool poolAbsentOracle =
      ⟨[Event.instancePoolsList, Event.instancePoolsCreate "azureml_training",
        Event.instancePoolsList],
        (get_instance_pool poolAbsentOracle.pools_list2
          "azureml_training").result⟩ :=
  ⟨(C1_pool_reconciliation_amended.1 baseOracle (some "pool-1")
      (by decide)).1 (by decide),
   (C1_pool_reconciliation_amended.1 poolAbsentOracle none
      (by decide)).2 (by decide) (by decide)⟩

/-- C5 counterexample: in a run whose `"databricks"` compute target is
missing, `token/create` is called but no `ComputeTarget.attach` is ever
performed: the run dies with `NameError` first — so the attach is not
performed even though the target is missing. -/
theorem C5_token_attach_cex :
    lookupStr wsEmpty.compute_targets "databricks" = none ∧
    Event.tokenCreate ("Azure ML Token generated by Build " ++ "local") ∈
      (script_main sha1c computeMissingOracle argvOk).trace ∧
    (script_main sha1c computeMissingOracle argvOk).trace.countP
      isComputeAttach = 0 ∧
    (script_main sha1c computeMissingOracle argvOk).result =
      .error (.nameError "args") := by
  decide

/-- C5 (amended): `token/create` is called iff the `"databricks"` compute
target is missing; when it exists as a `DatabricksCompute`, neither
`token/create` nor an attach is performed and the existing target is used
unchanged; when it is missing, `create_databricks_compute` is invoked but
raises `NameError` after `token/create` and before the attach, so the
attach is never performed and the reconciliation never completes. -/
theorem C5_token_attach_amended :
    (∀ (o : Oracle) (ws : Workspace) (b : String) (t : ComputeTargetObj),
      lookupStr ws.compute_targets "databricks" = some t →
      t.ctype = CTType.databricksCompute →
      phase_compute o ws b = ⟨[], .ok t⟩) ∧
    (∀ (o : Oracle) (ws : Workspace) (b : String),
      lookupStr ws.compute_targets "databricks" = none →
      (phase_compute o ws b).trace =
        [Event.tokenCreate ("Azure ML Token generated by Build " ++ b)] ∧
      (phase_compute o ws b).trace.countP isComputeAttach = 0 ∧
      ∀ c, (phase_compute o ws b).result ≠ .ok c) := by
  constructor
  · intro o ws b t h ht
    exact phase_compute_attached h ht
  · intro o ws b h
    refine ⟨phase_compute_missing_trace h, ?_, phase_compute_missing_not_ok h⟩
    rw [phase_compute_missing_trace h]
    rfl

/-- C5 witness: the attached case and the missing case at concrete
workspaces. -/
theorem C5_token_attach_amended_witness :
    phase_compute baseOracle wsAttached "local" = ⟨[], .ok dbxTarget⟩ ∧
    (phase_compute baseOracle wsEmpty "local").trace =
      [Event.tokenCreate ("Azure ML Token generated by Build " ++ "local")] :=
  ⟨C5_token_attach_amended.1 baseOracle wsAttached "local" dbxTarget
     (by decide) (by decide),
   (C5_token_attach_amended.2 baseOracle wsEmpty "local" (by decide)).1⟩

/-- C4 counterexample: `Run.get_context` raises, yet the run completes
successfully — the bare `except:` around it swallows the exception, so it is
not the case that every exception raised by an SDK call terminates the
process. -/
theorem C4_exception_cex :
    baseOracle.run_get_context = .error (.sdkError "offline") ∧
    Event.runGetContext ∈ (script_main sha1c baseOracle argvOk).trace ∧
    (script_main sha1c baseOracle argvOk).result = .ok () := by
  decide

/-- C4 (amended): apart from the explicit compute-type `ValueError`, the
script's only exception handling is the bare `except:` around
`Run.get_context`, which swallows any exception raised there and continues
offline; an exception raised by any other SDK/API call site propagates and
terminates the run with that exception. -/
theorem C4_exception_propagation :
    (∀ e : PyErr,
      (script_main sha1c { baseOracle with run_get_context := .error e }
        argvOk).result = .ok ()) ∧
    (∀ (s : CallSite) (e : PyErr),
      (script_main sha1c (failingAt s e) argvOk).result = .error e) := by
  constructor
  · intro e
    rfl
  · intro s e
    cases s <;> rfl

theorem cnt_call_zero {α : Type} {p : Event → Bool} {ev : Event}
    {r : Except PyErr α} (h : p ev = false) : cnt p (call ev r) = 0 := by
  simp [cnt, call, List.countP_cons, List.countP_nil, h]

theorem cnt_bind_call_false {α β : Type} {p : Event → Bool} {ev : Event}
    {r : Except PyErr α} {f : α → M β} {n : Nat}
    (h : p ev = false) (hf : ∀ a, cnt p (f a) ≤ n) :
    cnt p (M.bind (call ev r) f) ≤ n := by
  have hb := cnt_bind_le (le_of_eq (cnt_call_zero (r := r) h)) hf
  simpa using hb

theorem cnt_bind_call_any {α β : Type} {p : Event → Bool} {ev : Event}
    {r : Except PyErr α} {f : α → M β} {n : Nat}
    (hf : ∀ a, cnt p (f a) ≤ n) :
    cnt p (M.bind (call ev r) f) ≤ 1 + n :=
  cnt_bind_le cnt_call_le_one hf

theorem cnt_phase_auth_zero {o : Oracle} {n : String} {p : Event → Bool}
    (hp : ∀ ev, evClass ev = 0 → p ev = false) :
    cnt p (phase_auth o n) = 0 :=
  cnt_zero_of_traceSub (fun ev hev => hp ev (traceSub_phase_auth ev hev))

theorem phase_compute_trace_shapes (o : Oracle) (ws : Workspace) (b : String) :
    (phase_compute o ws b).trace = [] ∨
    ∃ c, (phase_compute o ws b).trace = [Event.tokenCreate c] := by
  cases hl : lookupStr ws.compute_targets "databricks" with
  | none =>
    right
    exact ⟨_, phase_compute_missing_trace hl⟩
  | some t =>
    by_cases ht : t.ctype = CTType.databricksCompute
    · left
      rw [phase_compute_attached hl ht]
    · left
      have hg : get_databricks_compute ws "databricks" =
          .error (.valueError
            ("Compute target " ++ t.objName ++ " is of different type")) := by
        unfold get_databricks_compute
        rw [hl]
        simp [objTruthy, ht]
      unfold phase_compute
      rw [hg]
      rfl

theorem cnt_phase_compute_le_one {o : Oracle} {ws : Workspace} {b : String}
    {p : Event → Bool} : cnt p (phase_compute o ws b) ≤ 1 := by
  rcases phase_compute_trace_shapes o ws b with h | ⟨c, h⟩
  · rw [cnt, h]
    simp
  · rw [cnt, h]
    cases hp : p (Event.tokenCreate c) <;>
      simp [List.countP_cons, List.countP_nil, hp]

theorem cnt_phase_compute_zero {o : Oracle} {ws : Workspace} {b : String}
    {p : Event → Bool} (hp : ∀ c, p (Event.tokenCreate c) = false) :
    cnt p (phase_compute o ws b) = 0 := by
  rcases phase_compute_trace_shapes o ws b with h | ⟨c, h⟩
  · rw [cnt, h]
    simp
  · rw [cnt, h]
    simp [List.countP_cons, List.countP_nil, hp c]

theorem cnt_phase_pool_zero {o : Oracle} {p : Event → Bool}
    (h1 : p Event.instancePoolsList = false)
    (h2 : p (Event.instancePoolsCreate "azureml_training") = false) :
    cnt p (phase_pool o) = 0 :=
  cnt_zero_of_traceSub (traceSub_phase_pool h1 h2)

theorem cnt_phase_pool_list_le_two {o : Oracle} :
    cnt isPoolsList (phase_pool o) ≤ 2 := by
  rcases phase_pool_shapes o with h | h | h <;> rw [cnt, h] <;> decide

theorem cnt_phase_pool_create_le_one {o : Oracle} :
    cnt isPoolsCreate (phase_pool o) ≤ 1 := by
  rcases phase_pool_shapes o with h | h | h <;> rw [cnt, h] <;> decide

theorem cnt_upload_mkdirs {sha1 : List Nat → String} {o : Oracle}
    {folder dir name : String} :
    cnt isMkdirs (upload_notebook sha1 o folder dir name) ≤ 1 := by
  unfold upload_notebook
  refine cnt_bind_call_false rfl fun content => ?_
  dsimp only
  exact le_trans
    (cnt_bind_call_any fun u =>
      cnt_bind_call_false rfl fun u2 => le_of_eq cnt_pure)
    (by norm_num)

theorem cnt_upload_import {sha1 : List Nat → String} {o : Oracle}
    {folder dir name : String} :
    cnt isImport (upload_notebook sha1 o folder dir name) ≤ 1 := by
  unfold upload_notebook
  refine cnt_bind_call_false rfl fun content => ?_
  dsimp only
  refine cnt_bind_call_false rfl fun u => ?_
  exact le_trans (cnt_bind_call_any fun u2 => le_of_eq cnt_pure) (by norm_num)

theorem cnt_upload_zero {sha1 : List Nat → String} {o : Oracle}
    {folder dir name : String} {p : Event → Bool}
    (hr : ∀ q, p (Event.fileRead q) = false)
    (hm : ∀ q, p (Event.workspaceMkdirs q) = false)
    (hi : ∀ q, p (Event.workspaceImport q) = false) :
    cnt p (upload_notebook sha1 o folder dir name) = 0 :=
  cnt_zero_of_traceSub
    (traceSub_upload_notebook (fun q => hr q) (fun q => hm q) (fun q => hi q))

theorem cnt_phase_build_zero {sha1 : List Nat → String} {o : Oracle}
    {ipid : Option String} {b : String} {p : Event → Bool}
    (hp : ∀ ev, 3 ≤ evClass ev → p ev = false) :
    cnt p (phase_build sha1 o ipid b) = 0 :=
  cnt_zero_of_traceSub (fun ev hev => hp ev (traceSub_phase_build ev hev))

theorem cnt_phase_build_mkdirs {sha1 : List Nat → String} {o : Oracle}
    {ipid : Option String} {b : String} :
    cnt isMkdirs (phase_build sha1 o ipid b) ≤ 1 := by
  unfold phase_build
  refine cnt_bind_call_false rfl fun u1 => ?_
  refine cnt_bind_call_false rfl fun u2 => ?_
  refine le_trans (cnt_bind_le (n := 0) cnt_upload_mkdirs fun nbp => ?_) ?_
  · exact cnt_bind_call_false rfl fun u3 =>
      cnt_bind_call_false rfl fun u4 =>
        cnt_bind_call_false rfl fun u5 => le_of_eq cnt_pure
  · norm_num

theorem cnt_phase_build_import {sha1 : List Nat → String} {o : Oracle}
    {ipid : Option String} {b : String} :
    cnt isImport (phase_build sha1 o ipid b) ≤ 1 := by
  unfold phase_build
  refine cnt_bind_call_false rfl fun u1 => ?_
  refine cnt_bind_call_false rfl fun u2 => ?_
  refine le_trans (cnt_bind_le (n := 0) cnt_upload_import fun nbp => ?_) ?_
  · exact cnt_bind_call_false rfl fun u3 =>
      cnt_bind_call_false rfl fun u4 =>
        cnt_bind_call_false rfl fun u5 => le_of_eq cnt_pure
  · norm_num

theorem cnt_phase_build_publish {sha1 : List Nat → String} {o : Oracle}
    {ipid : Option String} {b : String} :
    cnt isPublish (phase_build sha1 o ipid b) ≤ 1 := by
  unfold phase_build
  refine cnt_bind_call_false rfl fun u1 => ?_
  refine cnt_bind_call_false rfl fun u2 => ?_
  refine le_trans
    (cnt_bind_le (n := 1)
      (le_of_eq (cnt_upload_zero (fun q => rfl) (fun q => rfl) (fun q => rfl)))
      fun nbp => ?_) ?_
  · refine cnt_bind_call_false rfl fun u3 => ?_
    refine cnt_bind_call_false rfl fun u4 => ?_
    exact le_trans (cnt_bind_call_any fun u5 => le_of_eq cnt_pure) (by norm_num)
  · norm_num

theorem cnt_script_main_le {sha1 : List Nat → String} {o : Oracle}
    {argv : List String} {p : Event → Bool} {a1 a2 a3 a4 : Nat}
    (hauth : ∀ n, cnt p (phase_auth o n) ≤ a1)
    (hcomp : ∀ ws b, cnt p (phase_compute o ws b) ≤ a2)
    (hpool : cnt p (phase_pool o) ≤ a3)
    (hbuild : ∀ ipid b, cnt p (phase_build sha1 o ipid b) ≤ a4) :
    cnt p (script_main sha1 o argv) ≤ a1 + a2 + a3 + a4 := by
  unfold script_main
  refine le_trans
    (cnt_bind_le (le_of_eq cnt_liftE) fun args =>
      cnt_bind_le (hauth _) fun ws =>
        cnt_bind_le (hcomp _ _) fun c =>
          cnt_bind_le hpool fun ipid => hbuild _ _)
    (by omega)

/-- C9: no external API call is retried: in any single run, `token/create`,
`instance-pools/create`, `workspace/mkdirs`, `workspace/import`, the compute
attach and the pipeline publish are each invoked at most once, and
`instance-pools/list` is invoked at most twice (before and after creation). -/
theorem C9_no_retries (sha1 : List Nat → String) (o : Oracle)
    (argv : List String) :
    cnt isTokenCreate (script_main sha1 o argv) ≤ 1 ∧
    cnt isPoolsCreate (script_main sha1 o argv) ≤ 1 ∧
    cnt isMkdirs (script_main sha1 o argv) ≤ 1 ∧
    cnt isImport (script_main sha1 o argv) ≤ 1 ∧
    cnt isComputeAttach (script_main sha1 o argv) ≤ 1 ∧
    cnt isPublish (script_main sha1 o argv) ≤ 1 ∧
    cnt isPoolsList (script_main sha1 o argv) ≤ 2 := by
  refine ⟨?_, ?_, ?_, ?_, ?_, ?_, ?_⟩
  · refine le_trans
      (cnt_script_main_le
        (fun n => le_of_eq (cnt_phase_auth_zero (by
          intro ev h
          cases ev <;> simp_all [evClass, isTokenCreate])))
        (fun ws b => cnt_phase_compute_le_one)
        (le_of_eq (cnt_phase_pool_zero rfl rfl))
        (fun ipid b => le_of_eq (cnt_phase_build_zero (by
          intro ev h
          cases ev <;> simp_all [evClass, isTokenCreate]))))
      (by norm_num)
  · refine le_trans
      (cnt_script_main_le
        (fun n => le_of_eq (cnt_phase_auth_zero (by
          intro ev h
          cases ev <;> simp_all [evClass, isPoolsCreate])))
        (fun ws b => le_of_eq (cnt_phase_compute_zero fun c => rfl))
        cnt_phase_pool_create_le_one
        (fun ipid b => le_of_eq (cnt_phase_build_zero (by
          intro ev h
          cases ev <;> simp_all [evClass, isPoolsCreate]))))
      (by norm_num)
  · refine le_trans
      (cnt_script_main_le
        (fun n => le_of_eq (cnt_phase_auth_zero (by
          intro ev h
          cases ev <;> simp_all [evClass, isMkdirs])))
        (fun ws b => le_of_eq (cnt_phase_compute_zero fun c => rfl))
        (le_of_eq (cnt_phase_pool_zero rfl rfl))
        (fun ipid b => cnt_phase_build_mkdirs))
      (by norm_num)
  · refine le_trans
      (cnt_script_main_le
        (fun n => le_of_eq (cnt_phase_auth_zero (by
          intro ev h
          cases ev <;> simp_all [evClass, isImport])))
        (fun ws b => le_of_eq (cnt_phase_compute_zero fun c => rfl))
        (le_of_eq (cnt_phase_pool_zero rfl rfl))
        (fun ipid b => cnt_phase_build_import))
      (by norm_num)
  · refine le_trans
      (cnt_script_main_le
        (fun n => le_of_eq (cnt_phase_auth_zero (by
          intro ev h
          cases ev <;> simp_all [evClass, isComputeAttach])))
        (fun ws b => le_of_eq (cnt_phase_compute_zero fun c => rfl))
        (le_of_eq (cnt_phase_pool_zero rfl rfl))
        (fun ipid b => le_of_eq (cnt_phase_build_zero (by
          intro ev h
          cases ev <;> simp_all [evClass, isComputeAttach]))))
      (by norm_num)
  · refine le_trans
      (cnt_script_main_le
        (fun n => le_of_eq (cnt_phase_auth_zero (by
          intro ev h
          cases ev <;> simp_all [evClass, isPublish])))
        (fun ws b => le_of_eq (cnt_phase_compute_zero fun c => rfl))
        (le_of_eq (cnt_phase_pool_zero rfl rfl))
        (fun ipid b => cnt_phase_build_publish))
      (by norm_num)
  · refine le_trans
      (cnt_script_main_le
        (fun n => le_of_eq (cnt_phase_auth_zero (by
          intro ev h
          cases ev <;> simp_all [evClass, isPoolsList])))
        (fun ws b => le_of_eq (cnt_phase_compute_zero fun c => rfl))
        cnt_phase_pool_list_le_two
        (fun ipid b => le_of_eq (cnt_phase_build_zero (by
          intro ev h
          cases ev <;> simp_all [evClass, isPoolsList]))))
      (by norm_num)

/-- C8: in every complete (successful) run of `main`, the external
operations occur in stage order: authenticate (key-vault secrets and Azure
AD setup), compute-target resolution, instance-pool resolution/creation,
datastore resolution, notebook upload, step definition, validation,
publication — the stage index of the recorded calls is monotone along the
trace. -/
theorem C8_stage_order (sha1 : List Nat → String) (o : Oracle)
    (argv : List String) (h : (script_main sha1 o argv).result = .ok ()) :
    List.Sorted (· ≤ ·) ((script_main sha1 o argv).trace.map evClass) := by
  unfold script_main at h ⊢
  obtain ⟨args, hparse, h2⟩ := M_bind_result_ok h
  obtain ⟨ws, hauth, h3⟩ := M_bind_result_ok h2
  obtain ⟨c, hcomp, h4⟩ := M_bind_result_ok h3
  obtain ⟨ipid, hpool, h5⟩ := M_bind_result_ok h4
  rw [M_bind_trace_ok hparse]
  simp only [liftE_trace, List.nil_append]
  rw [M_bind_trace_ok hauth]
  rw [M_bind_trace_ok hcomp]
  rw [M_bind_trace_ok hpool]
  rw [phase_compute_ok_trace hcomp]
  simp only [List.nil_append]
  rw [List.map_append, List.map_append]
  have hA : ∀ x ∈ (phase_auth o args.databricks_workspace_name).trace.map evClass,
      x = 0 := by
    intro x hx
    obtain ⟨ev, hev, rfl⟩ := List.mem_map.mp hx
    exact traceSub_phase_auth ev hev
  have hP : ∀ x ∈ (phase_pool o).trace.map evClass, x = 2 := by
    intro x hx
    obtain ⟨ev, hev, rfl⟩ := List.mem_map.mp hx
    exact traceSub_phase_pool (S := fun ev => evClass ev = 2) rfl rfl ev hev
  have hB := phase_build_ok_classes h5
  show List.Pairwise (· ≤ ·) _
  rw [List.pairwise_append, List.pairwise_append]
  refine ⟨pairwise_le_of_const hA, ⟨pairwise_le_of_const hP, ?_, ?_⟩, ?_⟩
  · rw [hB]
    decide
  · intro x hx y hy
    rw [hP x hx]
    rw [hB] at hy
    simp at hy
    omega
  · intro x hx y hy
    rw [hA x hx]
    exact Nat.zero_le y

/-- C8 witness: a concrete successful run has a stage-monotone trace. -/
theorem C8_stage_order_witness :
    (script_main sha1c baseOracle argvOk).result = .ok () ∧
    List.Sorted (· ≤ ·)
      ((script_main sha1c baseOracle argvOk).trace.map evClass) :=
  ⟨by decide, C8_stage_order sha1c baseOracle argvOk (by decide)⟩
